import Mathlib

/-!
# Verification of the Cinephage release-scoring engine

Shallow embedding of the release scoring and custom-format matching engine of
the Cinephage repository, centred on `src/lib/server/scoring/scorer.ts`.

Embedding conventions:

* The release parser (`ReleaseParser`), the static format library
  (`formats/index.ts` / `ALL_FORMATS`) and the matcher (`matcher.ts`) are not
  part of the sources under verification (only `matcher.test.ts` is present),
  so `scoreRelease` is embedded as a function of the matched-format list — the
  output of step 2 of the original function.  Theorems quantifying over that
  list therefore cover every possible release.
* Format scores and score thresholds are JS numbers used as integers
  (spec §3: "formatScores (mapping format-id → integer score)"); they are
  embedded as `Int`.  File sizes involve division and are embedded as `ℚ`.
* JS produces `-Infinity` (banned releases), `+Infinity` and `NaN` during
  score subtraction; the type `JsNum` models exactly the IEEE behaviour of
  the values reachable in this code.
-/

/-- A JS number as it occurs in scoring results: `NaN`, the two infinities,
or a finite integer score. -/
inductive JsNum where
  | nan : JsNum
  | neginf : JsNum
  | posinf : JsNum
  | num : Int → JsNum
deriving DecidableEq

/-- IEEE-754 subtraction restricted to `JsNum`
(`-∞ - -∞ = NaN`, `a - -∞ = +∞`, `-∞ - a = -∞`, ...). -/
def JsNum.sub : JsNum → JsNum → JsNum
  | nan, _ => nan
  | _, nan => nan
  | neginf, neginf => nan
  | neginf, _ => neginf
  | posinf, posinf => nan
  | posinf, _ => posinf
  | num _, neginf => posinf
  | num _, posinf => neginf
  | num a, num b => num (a - b)

/-- IEEE-754 strict "less than" on `JsNum`: every comparison with `NaN` is
false; otherwise the order of the extended number line. -/
def JsNum.ltB : JsNum → JsNum → Bool
  | nan, _ => false
  | _, nan => false
  | neginf, neginf => false
  | neginf, _ => true
  | posinf, _ => false
  | num _, neginf => false
  | num _, posinf => true
  | num a, num b => decide (a < b)

/-- IEEE-754 "greater than" on `JsNum`. -/
def JsNum.gtB (a b : JsNum) : Bool := JsNum.ltB b a

/-- IEEE-754 "greater or equal" on `JsNum`: false when either side is `NaN`. -/
def JsNum.geB (a b : JsNum) : Bool :=
  match a, b with
  | nan, _ => false
  | _, nan => false
  | _, _ => !(JsNum.ltB a b)

/-- `Math.abs` restricted to `JsNum`. -/
def JsNum.abs : JsNum → JsNum
  | nan => nan
  | neginf => posinf
  | posinf => posinf
  | num a => num |a|

/-- Rendering of `x.toFixed(digits)` for the digit counts used by the scorer
(0 and 2).  Exact for the values the scorer formats (the float-to-decimal
shortest-round-trip details of JS are outside the model). -/
def jsToFixed (digits : Nat) (q : ℚ) : String :=
  let scaled : Int := ⌊q * (10 : ℚ) ^ digits + 1 / 2⌋
  if digits == 0 then toString scaled
  else
    let sign := if scaled < 0 then "-" else ""
    let a := scaled.natAbs
    let ip := a / 10 ^ digits
    let fp := a % 10 ^ digits
    let fpStr := toString fp
    let pad := String.mk (List.replicate (digits - fpStr.length) '0')
    sign ++ toString ip ++ "." ++ pad ++ fpStr

/-- Rendering of a JS number by template-string interpolation, used for the
profile bounds inside rejection reasons.  Exact for integral values (every
shipped size bound is integral); non-integral values are rendered as a plain
fraction — no claim depends on their rendering. -/
def jsNumRepr (q : ℚ) : String :=
  if q.den == 1 then toString q.num
  else toString q.num ++ "/" ++ toString q.den

/-- Rendering of an optional bound (`null` never reaches the template in the
source because the branch guards on it). -/
def jsOptRepr (o : Option ℚ) : String :=
  match o with
  | some q => jsNumRepr q
  | none => "null"

/-! ## Data model (spec §3)

`types.ts` of the scoring module is not among the sources under verification;
the shapes below are reconstructed from spec §3 and from how `scorer.ts` and
`matcher.test.ts` use them. -/

/-- Modelled from the spec: transport protocol tag
(`'torrent' | 'usenet' | 'streaming'`, spec §6); `types.ts` is missing from
the sources. -/
inductive Protocol where
  | torrent : Protocol
  | usenet : Protocol
  | streaming : Protocol
deriving DecidableEq

/-- The wire name of a protocol, as interpolated into rejection reasons. -/
def protocolTag : Protocol → String
  | Protocol.torrent => "torrent"
  | Protocol.usenet => "usenet"
  | Protocol.streaming => "streaming"

/-- Modelled from the spec: `mediaType` of a `SizeValidationContext`
(spec §6); `types.ts` is missing from the sources. -/
inductive MediaType where
  | movie : MediaType
  | tv : MediaType
deriving DecidableEq

/-- Modelled from the spec: `SizeValidationContext`
(`{ mediaType, isSeasonPack?, episodeCount? }`, spec §6); `types.ts` is
missing from the sources.  A JS `episodeCount` of `undefined` is `none`;
`isSeasonPack` of `undefined` is falsy, hence `Bool`. -/
structure SizeValidationContext where
  mediaType : MediaType
  isSeasonPack : Bool
  episodeCount : Option Int
deriving DecidableEq

/-- Modelled from the spec: one type-specific condition payload
(spec §3 `FormatCondition`, §4.1); `types.ts` is missing from the sources.
Enum-valued payloads are carried as strings (their normalized enum
representation); the `hdr` payload may be JS `null`, meaning SDR. -/
inductive CondType where
  | resolution : String → CondType
  | source : String → CondType
  | releaseTitle : String → CondType
  | releaseGroup : String → CondType
  | codec : String → CondType
  | audio : String → CondType
  | hdr : Option String → CondType
  | streamingService : String → CondType
  | flag : String → CondType
  | indexer : String → CondType
deriving DecidableEq

/-- Modelled from the spec: `FormatCondition` (spec §3); `types.ts` is
missing from the sources. -/
structure FormatCondition where
  name : String
  ctype : CondType
  required : Bool
  negate : Bool
deriving DecidableEq

/-- Modelled from the spec: `ReleaseAttributes` (spec §3); `types.ts` is
missing from the sources.  Enum fields carry their `"unknown"` sentinel as a
string; `hdr` is `none` for SDR; `releaseGroup` and `streamingService` may be
absent. -/
structure ReleaseAttributes where
  title : String
  cleanTitle : String
  year : Option Int
  resolution : String
  source : String
  codec : String
  hdr : Option String
  audio : String
  releaseGroup : Option String
  streamingService : Option String
  isRemux : Bool
  isRepack : Bool
  isProper : Bool
  is3d : Bool
  languages : List String
deriving DecidableEq

/-- Modelled from the spec: `CustomFormat` (spec §3); `types.ts` is missing
from the sources.  The category is carried as a string, as `scorer.ts`
compares it against string literals. -/
structure CustomFormat where
  id : String
  name : String
  description : String
  category : String
  tags : List String
  conditions : List FormatCondition
deriving DecidableEq

/-- Modelled from the spec: `ScoringProfile` (spec §3); `types.ts` is missing
from the sources.  `formatScores` is a JS record, embedded as an association
list; scores and `minScore` are integers (spec §3), size bounds are
rationals.  Optional fields carry the `?? null` / `?? 0` defaults applied at
use sites in `scorer.ts`. -/
structure ScoringProfile where
  id : String
  name : String
  formatScores : List (String × Int)
  minScore : Option Int
  upgradeUntilScore : Option Int
  minScoreIncrement : Option Int
  movieMinSizeGb : Option ℚ
  movieMaxSizeGb : Option ℚ
  episodeMinSizeMb : Option ℚ
  episodeMaxSizeMb : Option ℚ
  allowedProtocols : Option (List Protocol)
deriving DecidableEq

/-! ## Condition matcher and format evaluator (spec §4.1, §4.2)

`matcher.ts` is not among the sources under verification (only its test file
`matcher.test.ts` is), so the matcher is modelled from the spec.  The
regular-expression engine is abstracted as a compilation function returning
`none` for an invalid pattern (spec §4.1: an invalid pattern must behave as a
permanently non-matching predicate); its caching is latency-only state with
no correctness-visible effect (spec §5) and is not modelled. -/

/-- Modelled from the spec: the case-insensitive regular-expression engine
behind `matcher.ts` (missing from the sources), abstracted as a compiler
returning a predicate on strings, or `none` when the pattern is invalid. -/
structure RegexEngine where
  compile : String → Option (String → Bool)

/-- A regex engine under which no pattern compiles: every pattern behaves as
invalid.  Used to instantiate regex-independent facts. -/
def nullRegexEngine : RegexEngine := ⟨fun _ => none⟩

/-- Testing a pattern against a string: an invalid pattern never matches
(spec §4.1). -/
def regexTest (engine : RegexEngine) (pattern : String) (s : String) : Bool :=
  match engine.compile pattern with
  | none => false
  | some p => p s

/-- Modelled from the spec: lookup of a flag payload among the four boolean
attributes (spec §4.1: "payload names one of isRemux, isRepack, isProper,
is3d"); any other name references a missing attribute. -/
def lookupFlag (attrs : ReleaseAttributes) (flagName : String) : Option Bool :=
  if flagName == "isRemux" then some attrs.isRemux
  else if flagName == "isRepack" then some attrs.isRepack
  else if flagName == "isProper" then some attrs.isProper
  else if flagName == "is3d" then some attrs.is3d
  else none

/-- Modelled from the spec: the Atmos-in-title fallback (spec §4.1) — the raw
title contains the case-insensitive substring "atmos". -/
def titleHasAtmos (title : String) : Bool :=
  title.toLower.data.tails.any (fun t => "atmos".data.isPrefixOf t)

/-- Modelled from the spec: the raw (pre-negation) predicate of
`evaluateCondition` (spec §4.1); `matcher.ts` is missing from the sources.
A condition referencing a missing attribute yields `false`. -/
def conditionRawMatch (engine : RegexEngine) (c : FormatCondition)
    (attrs : ReleaseAttributes) : Bool :=
  match c.ctype with
  | CondType.resolution v => v == attrs.resolution
  | CondType.source v => v == attrs.source
  | CondType.codec v => v == attrs.codec
  | CondType.audio v =>
      v == attrs.audio || (v == "atmos" && titleHasAtmos attrs.title)
  | CondType.hdr v =>
      match v, attrs.hdr with
      | none, none => true
      | some s, none => s == "sdr"
      | none, some _ => false
      | some s, some h => s == h
  | CondType.releaseTitle pattern => regexTest engine pattern attrs.title
  | CondType.releaseGroup pattern =>
      match attrs.releaseGroup with
      | none => false
      | some g => regexTest engine pattern g
  | CondType.streamingService v =>
      match attrs.streamingService with
      | none => false
      | some s => v.toLower == s.toLower
  | CondType.flag flagName => (lookupFlag attrs flagName).getD false
  | CondType.indexer _ => false

/-- Result of evaluating one condition, with the pre-negation value retained
for the explain trace (spec §4.1). -/
structure ConditionResult where
  condition : FormatCondition
  «matches» : Bool
  rawMatch : Bool
deriving DecidableEq

/-- Modelled from the spec: `evaluateCondition` (spec §4.1:
`matches = negate ? !rawMatch : rawMatch`); `matcher.ts` is missing from the
sources. -/
def evaluateCondition (engine : RegexEngine) (c : FormatCondition)
    (attrs : ReleaseAttributes) : ConditionResult :=
  let rawMatch := conditionRawMatch engine c attrs
  { condition := c
    «matches» := if c.negate then !rawMatch else rawMatch
    rawMatch := rawMatch }

/-- Result of evaluating a whole format (spec §4.2). -/
structure FormatResult where
  «matches» : Bool
  conditionResults : List ConditionResult
deriving DecidableEq

/-- Modelled from the spec: `evaluateFormat` (spec §4.2: all required
conditions must match, and when optional conditions exist at least one must
match); `matcher.ts` is missing from the sources. -/
def evaluateFormat (engine : RegexEngine) (format : CustomFormat)
    (attrs : ReleaseAttributes) : FormatResult :=
  let results := format.conditions.map (fun c => evaluateCondition engine c attrs)
  let requiredResults := results.filter (fun r => r.condition.required)
  let optionalResults := results.filter (fun r => !r.condition.required)
  let requiredOk := requiredResults.all (fun r => r.«matches»)
  let optionalOk := optionalResults.isEmpty || optionalResults.any (fun r => r.«matches»)
  { «matches» := requiredOk && optionalOk
    conditionResults := results }

/-! ## Scorer (`scorer.ts`)

The definitions below are translated from `src/lib/server/scoring/scorer.ts`.
`scoreRelease` is embedded as a function of the matched-format list (the
output of `matchFormats(attrs, ALL_FORMATS)` in step 2 of the source, whose
implementation and format library are not among the sources under
verification); everything from step 2.5 on follows the source line by
line. -/

/-- A format that matched a release, with its condition trace
(`MatchedFormat` in `types.ts`, reconstructed from `scorer.ts` usage). -/
structure MatchedFormat where
  format : CustomFormat
  conditionResults : List ConditionResult
deriving DecidableEq

/-- A matched format with its profile-resolved score
(`ScoredFormat` in `types.ts`, reconstructed from `scorer.ts` usage). -/
structure ScoredFormat where
  format : CustomFormat
  conditionResults : List ConditionResult
  score : Int
deriving DecidableEq

/-- One bucket of the score breakdown: subtotal plus contributing format
names. -/
structure CategoryScore where
  score : Int
  formats : List String
deriving DecidableEq

/-- `ScoreBreakdown`: the nine fixed category buckets. -/
structure ScoreBreakdown where
  resolution : CategoryScore
  source : CategoryScore
  codec : CategoryScore
  audio : CategoryScore
  hdr : CategoryScore
  streaming : CategoryScore
  releaseGroupTier : CategoryScore
  banned : CategoryScore
  enhancement : CategoryScore
deriving DecidableEq

/-- The result of a scoring call (`ScoringResult`). -/
structure ScoringResult where
  releaseName : String
  profile : String
  totalScore : JsNum
  matchedFormats : List ScoredFormat
  breakdown : ScoreBreakdown
  meetsMinimum : Bool
  isBanned : Bool
  bannedReasons : List String
  sizeRejected : Bool
  sizeRejectionReason : Option String
  protocolRejected : Bool
  protocolRejectionReason : Option String
deriving DecidableEq

/-- `HDR_PRIORITY` from `scorer.ts`: HDR format ids, most specific first. -/
def HDR_PRIORITY : List String :=
  ["hdr-dolby-vision",
   "hdr-dolby-vision-no-fallback",
   "hdr-hdr10plus",
   "hdr-hdr10",
   "hdr10-missing",
   "hdr-generic",
   "hdr-hlg",
   "hdr-pq",
   "hdr-missing",
   "hdr-sdr"]

/-- The effective priority of an HDR format id in `applyMutualExclusivity`:
its index in `HDR_PRIORITY`, or 100 when absent (`indexOf` returning -1 in
the source). -/
def hdrEffectivePriority (id : String) : Nat :=
  match HDR_PRIORITY.findIdx? (fun s => s == id) with
  | some i => i
  | none => 100

/-- One iteration of the best-HDR-format loop in `applyMutualExclusivity`
(`if (effectivePriority < bestPriority) ...` with `bestPriority` starting at
`Infinity`, so the first format is always taken). -/
def hdrBestStep (acc : Option (MatchedFormat × Nat)) (hdr : MatchedFormat) :
    Option (MatchedFormat × Nat) :=
  let effectivePriority := hdrEffectivePriority hdr.format.id
  match acc with
  | none => some (hdr, effectivePriority)
  | some (best, bestPriority) =>
      if effectivePriority < bestPriority then some (hdr, effectivePriority)
      else some (best, bestPriority)

/-- `applyMutualExclusivity` from `scorer.ts`: when more than one hdr-category
format matched, keep only the highest-priority one; non-hdr formats pass
through. -/
def applyMutualExclusivity (matchedFormats : List MatchedFormat)
    (_profile : ScoringProfile) : List MatchedFormat :=
  let hdrFormats := matchedFormats.filter (fun mf => mf.format.category == "hdr")
  let otherFormats := matchedFormats.filter (fun mf => mf.format.category != "hdr")
  if hdrFormats.length > 1 then
    match hdrFormats.foldl hdrBestStep none with
    | some (bestHdr, _) => otherFormats ++ [bestHdr]
    | none => otherFormats
  else matchedFormats

/-- `calculateFormatScores` from `scorer.ts`:
`score = profile.formatScores[format.id] ?? 0`. -/
def calculateFormatScores (matchedFormats : List MatchedFormat)
    (profile : ScoringProfile) : List ScoredFormat :=
  matchedFormats.map (fun mf =>
    { format := mf.format
      conditionResults := mf.conditionResults
      score := (List.lookup mf.format.id profile.formatScores).getD 0 })

/-- The nine breakdown keys. -/
inductive BreakdownKey where
  | resolution | source | codec | audio | hdr
  | streaming | enhancement | banned | releaseGroupTier
deriving DecidableEq

/-- `categoryToBreakdownKey` from `scorer.ts`: the static category-to-bucket
mapping (`micro` and `low_quality` fold into `releaseGroupTier`; anything
else maps to no bucket). -/
def categoryToBreakdownKey (category : String) : Option BreakdownKey :=
  if category == "resolution" then some BreakdownKey.resolution
  else if category == "source" then some BreakdownKey.source
  else if category == "codec" then some BreakdownKey.codec
  else if category == "audio" then some BreakdownKey.audio
  else if category == "hdr" then some BreakdownKey.hdr
  else if category == "streaming" then some BreakdownKey.streaming
  else if category == "enhancement" then some BreakdownKey.enhancement
  else if category == "banned" then some BreakdownKey.banned
  else if category == "release_group_tier" then some BreakdownKey.releaseGroupTier
  else if category == "micro" then some BreakdownKey.releaseGroupTier
  else if category == "low_quality" then some BreakdownKey.releaseGroupTier
  else none

/-- The all-zero breakdown `buildBreakdown` starts from. -/
def emptyBreakdown : ScoreBreakdown :=
  { resolution := { score := 0, formats := [] }
    source := { score := 0, formats := [] }
    codec := { score := 0, formats := [] }
    audio := { score := 0, formats := [] }
    hdr := { score := 0, formats := [] }
    streaming := { score := 0, formats := [] }
    releaseGroupTier := { score := 0, formats := [] }
    banned := { score := 0, formats := [] }
    enhancement := { score := 0, formats := [] } }

/-- `breakdown[key].score += score; breakdown[key].formats.push(name)`. -/
def bumpBreakdown (b : ScoreBreakdown) (key : BreakdownKey) (score : Int)
    (name : String) : ScoreBreakdown :=
  match key with
  | BreakdownKey.resolution =>
      { b with resolution :=
          { score := b.resolution.score + score
            formats := b.resolution.formats ++ [name] } }
  | BreakdownKey.source =>
      { b with source :=
          { score := b.source.score + score
            formats := b.source.formats ++ [name] } }
  | BreakdownKey.codec =>
      { b with codec :=
          { score := b.codec.score + score
            formats := b.codec.formats ++ [name] } }
  | BreakdownKey.audio =>
      { b with audio :=
          { score := b.audio.score + score
            formats := b.audio.formats ++ [name] } }
  | BreakdownKey.hdr =>
      { b with hdr :=
          { score := b.hdr.score + score
            formats := b.hdr.formats ++ [name] } }
  | BreakdownKey.streaming =>
      { b with streaming :=
          { score := b.streaming.score + score
            formats := b.streaming.formats ++ [name] } }
  | BreakdownKey.enhancement =>
      { b with enhancement :=
          { score := b.enhancement.score + score
            formats := b.enhancement.formats ++ [name] } }
  | BreakdownKey.banned =>
      { b with banned :=
          { score := b.banned.score + score
            formats := b.banned.formats ++ [name] } }
  | BreakdownKey.releaseGroupTier =>
      { b with releaseGroupTier :=
          { score := b.releaseGroupTier.score + score
            formats := b.releaseGroupTier.formats ++ [name] } }

/-- The loop body of `buildBreakdown`: add one scored format to its bucket,
if any. -/
def addToBreakdown (b : ScoreBreakdown) (mf : ScoredFormat) : ScoreBreakdown :=
  match categoryToBreakdownKey mf.format.category with
  | some key => bumpBreakdown b key mf.score mf.format.name
  | none => b

/-- `buildBreakdown` from `scorer.ts`. -/
def buildBreakdown (scoredFormats : List ScoredFormat) : ScoreBreakdown :=
  scoredFormats.foldl addToBreakdown emptyBreakdown

/-- Guard `minSize !== null && size < minSize` from the size validation. -/
def belowBound (size : ℚ) (bound : Option ℚ) : Bool :=
  match bound with
  | none => false
  | some m => decide (size < m)

/-- Guard `maxSize !== null && size > maxSize` from the size validation. -/
def aboveBound (size : ℚ) (bound : Option ℚ) : Bool :=
  match bound with
  | none => false
  | some m => decide (size > m)

/-- Step 7 of `scoreRelease` (`scorer.ts`): media-specific file-size
validation, returning the `sizeRejected` flag together with the reason
string. -/
def validateSize (profile : ScoringProfile) (fileSizeBytes : Option ℚ)
    (sizeContext : Option SizeValidationContext) : Bool × Option String :=
  match fileSizeBytes, sizeContext with
  | some bytes, some ctx =>
    if bytes > 0 then
      let fileSizeGb := bytes / (1024 * 1024 * 1024)
      let fileSizeMb := bytes / (1024 * 1024)
      match ctx.mediaType with
      | MediaType.movie =>
        if belowBound fileSizeGb profile.movieMinSizeGb then
          (true, some ("Movie size " ++ jsToFixed 2 fileSizeGb
            ++ " GB is below minimum " ++ jsOptRepr profile.movieMinSizeGb ++ " GB"))
        else if aboveBound fileSizeGb profile.movieMaxSizeGb then
          (true, some ("Movie size " ++ jsToFixed 2 fileSizeGb
            ++ " GB exceeds maximum " ++ jsOptRepr profile.movieMaxSizeGb ++ " GB"))
        else (false, none)
      | MediaType.tv =>
        let effectiveSizeMb : ℚ :=
          if ctx.isSeasonPack then
            match ctx.episodeCount with
            | none => -1
            | some n => if n ≤ 0 then -1 else fileSizeMb / (n : ℚ)
          else fileSizeMb
        if effectiveSizeMb > 0 then
          let perEp := if ctx.isSeasonPack then " per episode (avg)" else ""
          if belowBound effectiveSizeMb profile.episodeMinSizeMb then
            (true, some ("Episode size " ++ jsToFixed 0 effectiveSizeMb ++ " MB" ++ perEp
              ++ " is below minimum " ++ jsOptRepr profile.episodeMinSizeMb ++ " MB"))
          else if aboveBound effectiveSizeMb profile.episodeMaxSizeMb then
            (true, some ("Episode size " ++ jsToFixed 0 effectiveSizeMb ++ " MB" ++ perEp
              ++ " exceeds maximum " ++ jsOptRepr profile.episodeMaxSizeMb ++ " MB"))
          else (false, none)
        else (false, none)
    else (false, none)
  | _, _ => (false, none)

/-- Step 8 of `scoreRelease` (`scorer.ts`): protocol restriction check. -/
def validateProtocolAllowed (profile : ScoringProfile)
    (protocol : Option Protocol) : Bool × Option String :=
  match protocol, profile.allowedProtocols with
  | some p, some allowed =>
    if allowed.length > 0 then
      if !(allowed.contains p) then
        (true, some ("Protocol \x27" ++ protocolTag p ++ "\x27 not allowed. Profile accepts: "
          ++ String.intercalate ", " (allowed.map protocolTag)))
      else (false, none)
    else (false, none)
  | _, _ => (false, none)

/-- `scoreRelease` from `scorer.ts`, from step 2.5 on (matching is supplied
as the `matchedFormatsIn` argument, see the section header).  Logging
(step 3.5 in the source) has no effect on the result and is omitted. -/
def scoreRelease (releaseName : String) (profile : ScoringProfile)
    (matchedFormatsIn : List MatchedFormat) (fileSizeBytes : Option ℚ)
    (sizeContext : Option SizeValidationContext) (protocol : Option Protocol) :
    ScoringResult :=
  let matchedFormats := applyMutualExclusivity matchedFormatsIn profile
  let scoredFormats := calculateFormatScores matchedFormats profile
  let breakdown := buildBreakdown scoredFormats
  let totalScore := scoredFormats.foldl (fun sum f => sum + f.score) 0
  let isBanned := scoredFormats.any (fun f => decide (f.score ≤ -999999))
  let bannedReasons :=
    (scoredFormats.filter (fun f => decide (f.score ≤ -999999))).map (fun f => f.format.name)
  let sizeOutcome := validateSize profile fileSizeBytes sizeContext
  let protocolOutcome := validateProtocolAllowed profile protocol
  let meetsMinimum := !isBanned && !sizeOutcome.1 && !protocolOutcome.1
    && decide (profile.minScore.getD 0 ≤ totalScore)
  { releaseName := releaseName
    profile := profile.name
    totalScore := if isBanned then JsNum.neginf else JsNum.num totalScore
    matchedFormats := scoredFormats
    breakdown := breakdown
    meetsMinimum := meetsMinimum
    isBanned := isBanned
    bannedReasons := bannedReasons
    sizeRejected := sizeOutcome.1
    sizeRejectionReason := sizeOutcome.2
    protocolRejected := protocolOutcome.1
    protocolRejectionReason := protocolOutcome.2 }

/-- The three possible winners of `compareReleases`. -/
inductive Winner where
  | release1 | release2 | tie
deriving DecidableEq

/-- The result record of `compareReleases`. -/
structure CompareResult where
  winner : Winner
  release1Score : ScoringResult
  release2Score : ScoringResult
  scoreDifference : JsNum
deriving DecidableEq

/-- `compareReleases` from `scorer.ts`: both releases are scored without size
context or protocol, and the winner is decided by the sign of the JS
subtraction of the total scores (`NaN` when both are `-Infinity`, in which
case neither branch fires and the result is a tie). -/
def compareReleases (release1 release2 : String) (profile : ScoringProfile)
    (matched1 matched2 : List MatchedFormat)
    (size1Bytes size2Bytes : Option ℚ) : CompareResult :=
  let score1 := scoreRelease release1 profile matched1 size1Bytes none none
  let score2 := scoreRelease release2 profile matched2 size2Bytes none none
  let diff := JsNum.sub score1.totalScore score2.totalScore
  let winner :=
    if JsNum.gtB diff (JsNum.num 0) then Winner.release1
    else if JsNum.ltB diff (JsNum.num 0) then Winner.release2
    else Winner.tie
  { winner := winner
    release1Score := score1
    release2Score := score2
    scoreDifference := JsNum.abs diff }

/-- The options record of `isUpgrade`, with `none` for omitted fields (the
attribute fields of the source are subsumed by the matched-format lists). -/
structure UpgradeOptions where
  minimumImprovement : Option Int
  allowSidegrade : Option Bool
  existingSizeBytes : Option ℚ
  candidateSizeBytes : Option ℚ
deriving DecidableEq

/-- The result record of `isUpgrade`. -/
structure UpgradeResult where
  isUpgrade : Bool
  improvement : JsNum
  existing : ScoringResult
  candidate : ScoringResult
deriving DecidableEq

/-- `isUpgrade` from `scorer.ts`: a banned, size-rejected, protocol-rejected
or below-minimum candidate is never an upgrade; otherwise the improvement is
the JS subtraction of total scores, compared against `minimumImprovement`
(default 0) strictly, or non-strictly when `allowSidegrade` (default false).
Both scoring calls pass no size context and no protocol. -/
def isUpgrade (existingRelease candidateRelease : String)
    (profile : ScoringProfile) (matchedExisting matchedCandidate : List MatchedFormat)
    (options : UpgradeOptions) : UpgradeResult :=
  let minimumImprovement := options.minimumImprovement.getD 0
  let allowSidegrade := options.allowSidegrade.getD false
  let existing :=
    scoreRelease existingRelease profile matchedExisting options.existingSizeBytes none none
  let candidate :=
    scoreRelease candidateRelease profile matchedCandidate options.candidateSizeBytes none none
  if candidate.isBanned || candidate.sizeRejected || candidate.protocolRejected
      || !candidate.meetsMinimum then
    { isUpgrade := false
      improvement := JsNum.num 0
      existing := existing
      candidate := candidate }
  else
    let improvement := JsNum.sub candidate.totalScore existing.totalScore
    let isUpgradeResult :=
      if allowSidegrade then JsNum.geB improvement (JsNum.num minimumImprovement)
      else JsNum.gtB improvement (JsNum.num minimumImprovement)
    { isUpgrade := isUpgradeResult
      improvement := improvement
      existing := existing
      candidate := candidate }

/-- The sum of the nine breakdown subtotals. -/
def breakdownTotal (b : ScoreBreakdown) : Int :=
  b.resolution.score + b.source.score + b.codec.score + b.audio.score
    + b.hdr.score + b.streaming.score + b.releaseGroupTier.score
    + b.banned.score + b.enhancement.score

/-- A two-element matched-format list (a generic-HDR format and a
Dolby-Vision format) used to instantiate the mutual-exclusivity theorem. -/
def sampleHdrMatches : List MatchedFormat :=
  [⟨⟨"hdr-generic", "HDR", "", "hdr", [], []⟩, []⟩,
   ⟨⟨"hdr-dolby-vision", "DV", "", "hdr", [], []⟩, []⟩]

/-- The release attributes of an attribute-poor release: no release group, no
streaming service, all flags clear. -/
def bareAttrs : ReleaseAttributes :=
  ⟨"Movie.2024", "Movie", none, "1080p", "webdl", "h264", none, "aac",
    none, none, false, false, false, false, []⟩

/-- A profile whose only size restriction is an 800 MB per-episode cap,
matching the spec's season-pack scenario. -/
def cap800Profile : ScoringProfile :=
  ⟨"p", "P", [], none, none, none, none, none, none, some 800, none⟩

/-! ## Projection lemmas for `scoreRelease`

Each lemma reads one field off the result record; all hold by unfolding the
definition. -/

theorem scoreRelease_matchedFormats (name : String) (prof : ScoringProfile)
    (matched : List MatchedFormat) (fsb : Option ℚ)
    (ctx : Option SizeValidationContext) (proto : Option Protocol) :
    (scoreRelease name prof matched fsb ctx proto).matchedFormats
      = calculateFormatScores (applyMutualExclusivity matched prof) prof := rfl

theorem scoreRelease_isBanned (name : String) (prof : ScoringProfile)
    (matched : List MatchedFormat) (fsb : Option ℚ)
    (ctx : Option SizeValidationContext) (proto : Option Protocol) :
    (scoreRelease name prof matched fsb ctx proto).isBanned
      = (calculateFormatScores (applyMutualExclusivity matched prof) prof).any
          (fun f => decide (f.score ≤ -999999)) := rfl

theorem scoreRelease_bannedReasons (name : String) (prof : ScoringProfile)
    (matched : List MatchedFormat) (fsb : Option ℚ)
    (ctx : Option SizeValidationContext) (proto : Option Protocol) :
    (scoreRelease name prof matched fsb ctx proto).bannedReasons
      = ((calculateFormatScores (applyMutualExclusivity matched prof) prof).filter
          (fun f => decide (f.score ≤ -999999))).map (fun f => f.format.name) := rfl

theorem scoreRelease_totalScore (name : String) (prof : ScoringProfile)
    (matched : List MatchedFormat) (fsb : Option ℚ)
    (ctx : Option SizeValidationContext) (proto : Option Protocol) :
    (scoreRelease name prof matched fsb ctx proto).totalScore
      = (if (calculateFormatScores (applyMutualExclusivity matched prof) prof).any
            (fun f => decide (f.score ≤ -999999))
         then JsNum.neginf
         else JsNum.num ((calculateFormatScores (applyMutualExclusivity matched prof)
            prof).foldl (fun sum f => sum + f.score) 0)) := rfl

theorem scoreRelease_breakdown (name : String) (prof : ScoringProfile)
    (matched : List MatchedFormat) (fsb : Option ℚ)
    (ctx : Option SizeValidationContext) (proto : Option Protocol) :
    (scoreRelease name prof matched fsb ctx proto).breakdown
      = buildBreakdown (calculateFormatScores (applyMutualExclusivity matched prof) prof)
      := rfl

theorem scoreRelease_sizeRejected (name : String) (prof : ScoringProfile)
    (matched : List MatchedFormat) (fsb : Option ℚ)
    (ctx : Option SizeValidationContext) (proto : Option Protocol) :
    (scoreRelease name prof matched fsb ctx proto).sizeRejected
      = (validateSize prof fsb ctx).1 := rfl

theorem scoreRelease_sizeRejectionReason (name : String) (prof : ScoringProfile)
    (matched : List MatchedFormat) (fsb : Option ℚ)
    (ctx : Option SizeValidationContext) (proto : Option Protocol) :
    (scoreRelease name prof matched fsb ctx proto).sizeRejectionReason
      = (validateSize prof fsb ctx).2 := rfl

theorem scoreRelease_protocolRejected (name : String) (prof : ScoringProfile)
    (matched : List MatchedFormat) (fsb : Option ℚ)
    (ctx : Option SizeValidationContext) (proto : Option Protocol) :
    (scoreRelease name prof matched fsb ctx proto).protocolRejected
      = (validateProtocolAllowed prof proto).1 := rfl

theorem scoreRelease_meetsMinimum (name : String) (prof : ScoringProfile)
    (matched : List MatchedFormat) (fsb : Option ℚ)
    (ctx : Option SizeValidationContext) (proto : Option Protocol) :
    (scoreRelease name prof matched fsb ctx proto).meetsMinimum
      = (!(calculateFormatScores (applyMutualExclusivity matched prof) prof).any
            (fun f => decide (f.score ≤ -999999))
         && !(validateSize prof fsb ctx).1
         && !(validateProtocolAllowed prof proto).1
         && decide (prof.minScore.getD 0
              ≤ (calculateFormatScores (applyMutualExclusivity matched prof) prof).foldl
                  (fun sum f => sum + f.score) 0)) := rfl

/-! ## Helper lemmas -/

/-- The running-sum loop of step 5 accumulates the list sum. -/
theorem foldl_score_sum (l : List ScoredFormat) (a : Int) :
    l.foldl (fun sum f => sum + f.score) a = a + (l.map (fun f => f.score)).sum := by
  induction l generalizing a with
  | nil => simp
  | cons x xs ih => simp [List.foldl_cons, ih, add_assoc]

/-- `geB` on finite values is the integer comparison. -/
theorem JsNum.geB_num_num (a b : Int) :
    JsNum.geB (JsNum.num a) (JsNum.num b) = decide (b ≤ a) := by
  show (!decide (a < b)) = decide (b ≤ a)
  simp [← decide_not, Int.not_lt]

/-- `gtB` on finite values is the integer comparison. -/
theorem JsNum.gtB_num_num (a b : Int) :
    JsNum.gtB (JsNum.num a) (JsNum.num b) = decide (b < a) := by
  rfl

/-! ## Claim theorems -/

/-- Claim C1: a release is banned iff at least one matched format's
profile-resolved score is at most -999999; a banned release's reported total
score is `-Infinity` regardless of the arithmetic sum, and `bannedReasons`
collects exactly the names of all such formats. -/
theorem claim1_scoreRelease_ban_semantics (name : String) (prof : ScoringProfile)
    (matched : List MatchedFormat) (fsb : Option ℚ)
    (ctx : Option SizeValidationContext) (proto : Option Protocol) :
    ((scoreRelease name prof matched fsb ctx proto).isBanned = true ↔
      ∃ f ∈ (scoreRelease name prof matched fsb ctx proto).matchedFormats,
        f.score ≤ -999999)
    ∧ ((scoreRelease name prof matched fsb ctx proto).isBanned = true →
        (scoreRelease name prof matched fsb ctx proto).totalScore = JsNum.neginf)
    ∧ (scoreRelease name prof matched fsb ctx proto).bannedReasons
      = ((scoreRelease name prof matched fsb ctx proto).matchedFormats.filter
          (fun f => decide (f.score ≤ -999999))).map (fun f => f.format.name) := by
  refine ⟨?_, ?_, ?_⟩
  · rw [scoreRelease_isBanned, scoreRelease_matchedFormats]
    simp [List.any_eq_true]
  · intro h
    rw [scoreRelease_isBanned] at h
    rw [scoreRelease_totalScore, if_pos h]
  · rw [scoreRelease_bannedReasons, scoreRelease_matchedFormats]

/-- Claim C1 witness: a concrete profile and matched format with score
-1000000 produce a banned result with total score `-Infinity`. -/
theorem claim1_scoreRelease_ban_semantics_witness :
    ((scoreRelease "R" ⟨"p", "P", [("f", -1000000)], none, none, none, none,
        none, none, none, none⟩
        [⟨⟨"f", "F", "", "other", [], []⟩, []⟩] none none none).isBanned = true)
    ∧ ((scoreRelease "R" ⟨"p", "P", [("f", -1000000)], none, none, none, none,
        none, none, none, none⟩
        [⟨⟨"f", "F", "", "other", [], []⟩, []⟩] none none none).totalScore
        = JsNum.neginf) := by
  refine ⟨by decide, ?_⟩
  exact (claim1_scoreRelease_ban_semantics "R"
    ⟨"p", "P", [("f", -1000000)], none, none, none, none, none, none, none, none⟩
    [⟨⟨"f", "F", "", "other", [], []⟩, []⟩] none none none).2.1 (by decide)

/-- Claim C2: `meetsMinimum` equals the conjunction of not banned, not
size-rejected, not protocol-rejected, and reported total score at least the
profile's minimum score (default 0); in particular a release that meets the
minimum has all three rejection flags clear. -/
theorem claim2_scoreRelease_meetsMinimum_formula (name : String)
    (prof : ScoringProfile) (matched : List MatchedFormat) (fsb : Option ℚ)
    (ctx : Option SizeValidationContext) (proto : Option Protocol) :
    (scoreRelease name prof matched fsb ctx proto).meetsMinimum
      = (!(scoreRelease name prof matched fsb ctx proto).isBanned
          && !(scoreRelease name prof matched fsb ctx proto).sizeRejected
          && !(scoreRelease name prof matched fsb ctx proto).protocolRejected
          && JsNum.geB (scoreRelease name prof matched fsb ctx proto).totalScore
              (JsNum.num (prof.minScore.getD 0)))
    ∧ ((scoreRelease name prof matched fsb ctx proto).meetsMinimum = true →
        (scoreRelease name prof matched fsb ctx proto).isBanned = false
        ∧ (scoreRelease name prof matched fsb ctx proto).sizeRejected = false
        ∧ (scoreRelease name prof matched fsb ctx proto).protocolRejected = false) := by
  constructor
  · rw [scoreRelease_meetsMinimum, scoreRelease_isBanned, scoreRelease_sizeRejected,
      scoreRelease_protocolRejected, scoreRelease_totalScore]
    rcases h : (calculateFormatScores (applyMutualExclusivity matched prof) prof).any
        (fun f => decide (f.score ≤ -999999)) with _ | _
    · rw [if_neg (by simp [h]), JsNum.geB_num_num]
    · simp [JsNum.geB]
  · intro h
    rw [scoreRelease_meetsMinimum] at h
    simp only [Bool.and_eq_true, Bool.not_eq_true'] at h
    rw [scoreRelease_isBanned, scoreRelease_sizeRejected, scoreRelease_protocolRejected]
    exact ⟨h.1.1.1, h.1.1.2, h.1.2⟩

/-- Claim C2 witness: a release with no matched formats against an empty
profile meets the minimum, and all three rejection flags are clear. -/
theorem claim2_scoreRelease_meetsMinimum_formula_witness :
    (scoreRelease "R" ⟨"p", "P", [], none, none, none, none, none, none, none,
        none⟩ [] none none none).meetsMinimum = true
    ∧ (scoreRelease "R" ⟨"p", "P", [], none, none, none, none, none, none, none,
        none⟩ [] none none none).isBanned = false := by
  refine ⟨by decide, ?_⟩
  exact ((claim2_scoreRelease_meetsMinimum_formula "R"
    ⟨"p", "P", [], none, none, none, none, none, none, none, none⟩
    [] none none none).2 (by decide)).1

/-- Size validation is a no-op when no size context is supplied. -/
theorem validateSize_no_context (prof : ScoringProfile) (fsb : Option ℚ) :
    validateSize prof fsb none = (false, none) := by
  cases fsb <;> rfl

/-- Protocol validation is a no-op when no protocol is supplied. -/
theorem validateProtocolAllowed_no_protocol (prof : ScoringProfile) :
    validateProtocolAllowed prof none = (false, none) := by
  cases h : prof.allowedProtocols <;> rfl

/-- Claim C10: `isUpgrade` scores both releases without a size context or
protocol, and `scoreRelease` validates size and protocol only when those
arguments are supplied, so both intermediate results always carry
`sizeRejected = false` and `protocolRejected = false`; consequently the
candidate-rejection guard of `isUpgrade` reduces to
"banned or fails `meetsMinimum`". -/
theorem claim10_isUpgrade_never_size_or_protocol_rejected
    (existingRelease candidateRelease : String) (prof : ScoringProfile)
    (matchedExisting matchedCandidate : List MatchedFormat)
    (options : UpgradeOptions) :
    (isUpgrade existingRelease candidateRelease prof matchedExisting
        matchedCandidate options).candidate.sizeRejected = false
    ∧ (isUpgrade existingRelease candidateRelease prof matchedExisting
        matchedCandidate options).candidate.protocolRejected = false
    ∧ (isUpgrade existingRelease candidateRelease prof matchedExisting
        matchedCandidate options).existing.sizeRejected = false
    ∧ (isUpgrade existingRelease candidateRelease prof matchedExisting
        matchedCandidate options).existing.protocolRejected = false
    ∧ ((isUpgrade existingRelease candidateRelease prof matchedExisting
          matchedCandidate options).candidate.isBanned
        || (isUpgrade existingRelease candidateRelease prof matchedExisting
          matchedCandidate options).candidate.sizeRejected
        || (isUpgrade existingRelease candidateRelease prof matchedExisting
          matchedCandidate options).candidate.protocolRejected
        || !(isUpgrade existingRelease candidateRelease prof matchedExisting
          matchedCandidate options).candidate.meetsMinimum)
      = ((isUpgrade existingRelease candidateRelease prof matchedExisting
          matchedCandidate options).candidate.isBanned
        || !(isUpgrade existingRelease candidateRelease prof matchedExisting
          matchedCandidate options).candidate.meetsMinimum) := by
  have hcand : (isUpgrade existingRelease candidateRelease prof matchedExisting
      matchedCandidate options).candidate
      = scoreRelease candidateRelease prof matchedCandidate
          options.candidateSizeBytes none none := by
    simp only [isUpgrade]
    split <;> rfl
  have hexist : (isUpgrade existingRelease candidateRelease prof matchedExisting
      matchedCandidate options).existing
      = scoreRelease existingRelease prof matchedExisting
          options.existingSizeBytes none none := by
    simp only [isUpgrade]
    split <;> rfl
  have hs : ∀ (nm : String) (m : List MatchedFormat) (b : Option ℚ),
      (scoreRelease nm prof m b none none).sizeRejected = false := by
    intro nm m b
    rw [scoreRelease_sizeRejected, validateSize_no_context]
  have hp : ∀ (nm : String) (m : List MatchedFormat) (b : Option ℚ),
      (scoreRelease nm prof m b none none).protocolRejected = false := by
    intro nm m b
    rw [scoreRelease_protocolRejected, validateProtocolAllowed_no_protocol]
  rw [hcand, hexist]
  refine ⟨hs _ _ _, hp _ _ _, hs _ _ _, hp _ _ _, ?_⟩
  rw [hs, hp]
  cases (scoreRelease candidateRelease prof matchedCandidate
      options.candidateSizeBytes none none).isBanned <;> simp

/-- Claim C6: a candidate that is banned, size-rejected, protocol-rejected or
below the minimum is never an upgrade; otherwise the improvement is the JS
difference of total scores and the verdict compares it against
`minimumImprovement` (default 0), strictly unless `allowSidegrade`
(default false). -/
theorem claim6_isUpgrade_semantics (existingRelease candidateRelease : String)
    (prof : ScoringProfile)
    (matchedExisting matchedCandidate : List MatchedFormat)
    (options : UpgradeOptions) :
    (((isUpgrade existingRelease candidateRelease prof matchedExisting
          matchedCandidate options).candidate.isBanned = true
        ∨ (isUpgrade existingRelease candidateRelease prof matchedExisting
            matchedCandidate options).candidate.sizeRejected = true
        ∨ (isUpgrade existingRelease candidateRelease prof matchedExisting
            matchedCandidate options).candidate.protocolRejected = true
        ∨ (isUpgrade existingRelease candidateRelease prof matchedExisting
            matchedCandidate options).candidate.meetsMinimum = false) →
      (isUpgrade existingRelease candidateRelease prof matchedExisting
          matchedCandidate options).isUpgrade = false)
    ∧ (((isUpgrade existingRelease candidateRelease prof matchedExisting
            matchedCandidate options).candidate.isBanned = false
        ∧ (isUpgrade existingRelease candidateRelease prof matchedExisting
            matchedCandidate options).candidate.sizeRejected = false
        ∧ (isUpgrade existingRelease candidateRelease prof matchedExisting
            matchedCandidate options).candidate.protocolRejected = false
        ∧ (isUpgrade existingRelease candidateRelease prof matchedExisting
            matchedCandidate options).candidate.meetsMinimum = true) →
      (isUpgrade existingRelease candidateRelease prof matchedExisting
          matchedCandidate options).improvement
        = JsNum.sub
            (isUpgrade existingRelease candidateRelease prof matchedExisting
              matchedCandidate options).candidate.totalScore
            (isUpgrade existingRelease candidateRelease prof matchedExisting
              matchedCandidate options).existing.totalScore
      ∧ (isUpgrade existingRelease candidateRelease prof matchedExisting
            matchedCandidate options).isUpgrade
        = (if options.allowSidegrade.getD false
           then JsNum.geB
              (isUpgrade existingRelease candidateRelease prof matchedExisting
                matchedCandidate options).improvement
              (JsNum.num (options.minimumImprovement.getD 0))
           else JsNum.gtB
              (isUpgrade existingRelease candidateRelease prof matchedExisting
                matchedCandidate options).improvement
              (JsNum.num (options.minimumImprovement.getD 0)))) := by
  simp only [isUpgrade]
  split
  · rename_i hguard
    constructor
    · intro _
      rfl
    · intro h
      simp only at h
      rcases h with ⟨h1, h2, h3, h4⟩
      rw [h1, h2, h3, h4] at hguard
      simp at hguard
  · rename_i hguard
    constructor
    · intro h
      simp only at h
      rcases h with h | h | h | h <;> rw [h] at hguard <;> simp at hguard
    · intro _
      exact ⟨rfl, rfl⟩

/-- Claim C6 witness: with an empty-format candidate and a lower-scoring
existing release, the non-rejected branch applies: the improvement is the JS
difference and the verdict is the strict comparison against the default
minimum improvement. -/
theorem claim6_isUpgrade_semantics_witness :
    (isUpgrade "E" "C" ⟨"p", "P", [("e", -3)], none, none, none, none, none,
        none, none, none⟩
      [⟨⟨"e", "Old", "", "other", [], []⟩, []⟩] []
      ⟨none, none, none, none⟩).improvement
      = JsNum.sub
          (isUpgrade "E" "C" ⟨"p", "P", [("e", -3)], none, none, none, none,
              none, none, none, none⟩
            [⟨⟨"e", "Old", "", "other", [], []⟩, []⟩] []
            ⟨none, none, none, none⟩).candidate.totalScore
          (isUpgrade "E" "C" ⟨"p", "P", [("e", -3)], none, none, none, none,
              none, none, none, none⟩
            [⟨⟨"e", "Old", "", "other", [], []⟩, []⟩] []
            ⟨none, none, none, none⟩).existing.totalScore := by
  exact ((claim6_isUpgrade_semantics "E" "C"
    ⟨"p", "P", [("e", -3)], none, none, none, none, none, none, none, none⟩
    [⟨⟨"e", "Old", "", "other", [], []⟩, []⟩] []
    ⟨none, none, none, none⟩).2 (by refine ⟨?_, ?_, ?_, ?_⟩ <;> decide)).1

/-- The total score of a scoring result is `-Infinity` or finite, never `NaN`
or `+Infinity`. -/
theorem scoreRelease_totalScore_cases (name : String) (prof : ScoringProfile)
    (matched : List MatchedFormat) (fsb : Option ℚ)
    (ctx : Option SizeValidationContext) (proto : Option Protocol) :
    (scoreRelease name prof matched fsb ctx proto).totalScore = JsNum.neginf
    ∨ ∃ n : Int,
        (scoreRelease name prof matched fsb ctx proto).totalScore = JsNum.num n := by
  rw [scoreRelease_totalScore]
  split
  · exact Or.inl rfl
  · exact Or.inr ⟨_, rfl⟩

/-- Claim C8: `compareReleases` declares release1 the winner iff its total
score is strictly greater (in the extended order, where both `-Infinity`
totals compare equal), release2 iff strictly smaller, and a tie exactly on
equal total scores — including the case where both releases are banned and
both totals are `-Infinity`. -/
theorem claim8_compareReleases_winner (release1 release2 : String)
    (prof : ScoringProfile) (matched1 matched2 : List MatchedFormat)
    (size1Bytes size2Bytes : Option ℚ) :
    ((compareReleases release1 release2 prof matched1 matched2 size1Bytes
        size2Bytes).winner = Winner.release1 ↔
      JsNum.gtB
        (compareReleases release1 release2 prof matched1 matched2 size1Bytes
          size2Bytes).release1Score.totalScore
        (compareReleases release1 release2 prof matched1 matched2 size1Bytes
          size2Bytes).release2Score.totalScore = true)
    ∧ ((compareReleases release1 release2 prof matched1 matched2 size1Bytes
        size2Bytes).winner = Winner.release2 ↔
      JsNum.ltB
        (compareReleases release1 release2 prof matched1 matched2 size1Bytes
          size2Bytes).release1Score.totalScore
        (compareReleases release1 release2 prof matched1 matched2 size1Bytes
          size2Bytes).release2Score.totalScore = true)
    ∧ ((compareReleases release1 release2 prof matched1 matched2 size1Bytes
        size2Bytes).winner = Winner.tie ↔
      (compareReleases release1 release2 prof matched1 matched2 size1Bytes
          size2Bytes).release1Score.totalScore
        = (compareReleases release1 release2 prof matched1 matched2 size1Bytes
          size2Bytes).release2Score.totalScore) := by
  have h1 : (compareReleases release1 release2 prof matched1 matched2 size1Bytes
      size2Bytes).release1Score
      = scoreRelease release1 prof matched1 size1Bytes none none := rfl
  have h2 : (compareReleases release1 release2 prof matched1 matched2 size1Bytes
      size2Bytes).release2Score
      = scoreRelease release2 prof matched2 size2Bytes none none := rfl
  have hw : (compareReleases release1 release2 prof matched1 matched2 size1Bytes
      size2Bytes).winner
      = (if JsNum.gtB (JsNum.sub
            (scoreRelease release1 prof matched1 size1Bytes none none).totalScore
            (scoreRelease release2 prof matched2 size2Bytes none none).totalScore)
            (JsNum.num 0) then Winner.release1
         else if JsNum.ltB (JsNum.sub
            (scoreRelease release1 prof matched1 size1Bytes none none).totalScore
            (scoreRelease release2 prof matched2 size2Bytes none none).totalScore)
            (JsNum.num 0) then Winner.release2
         else Winner.tie) := rfl
  rw [h1, h2, hw]
  rcases scoreRelease_totalScore_cases release1 prof matched1 size1Bytes none none
    with ha | ⟨a, ha⟩ <;>
    rcases scoreRelease_totalScore_cases release2 prof matched2 size2Bytes none none
      with hb | ⟨b, hb⟩ <;>
    rw [ha, hb]
  · refine ⟨?_, ?_, ?_⟩ <;> simp [JsNum.sub, JsNum.gtB, JsNum.ltB]
  · refine ⟨?_, ?_, ?_⟩ <;> simp [JsNum.sub, JsNum.gtB, JsNum.ltB]
  · refine ⟨?_, ?_, ?_⟩ <;> simp [JsNum.sub, JsNum.gtB, JsNum.ltB]
  · refine ⟨?_, ?_, ?_⟩ <;>
      simp only [JsNum.sub, JsNum.gtB_num_num, JsNum.ltB] <;>
      rcases lt_trichotomy a b with hab | hab | hab
    · simp [hab, not_lt_of_gt hab, Int.sub_neg, Int.sub_pos, not_lt.mpr (le_of_lt hab)]
    · simp [hab, Int.sub_pos, Int.sub_neg]
    · simp [Int.sub_pos, Int.sub_neg, hab, not_lt_of_gt hab]
    · simp [hab, Int.sub_neg, Int.sub_pos, not_lt.mpr (le_of_lt hab)]
    · simp [hab, Int.sub_pos, Int.sub_neg]
    · simp [Int.sub_pos, Int.sub_neg, hab, not_lt_of_gt hab]
    · simp [hab, Int.sub_neg, Int.sub_pos, not_lt.mpr (le_of_lt hab), sub_eq_zero,
        ne_of_lt hab]
    · simp [hab, Int.sub_pos, Int.sub_neg, sub_eq_zero]
    · simp [Int.sub_pos, Int.sub_neg, hab, not_lt_of_gt hab, sub_eq_zero,
        (ne_of_lt hab).symm]

/-- One step of the best-HDR loop: the result is always `some`, is
well-formed, comes from the new element or the accumulator, and its priority
is at most both the new element's priority and the accumulator's. -/
theorem hdrBestStep_cases (acc : Option (MatchedFormat × Nat)) (x : MatchedFormat)
    (hwf : ∀ a q, acc = some (a, q) → q = hdrEffectivePriority a.format.id) :
    ∃ c pc, hdrBestStep acc x = some (c, pc)
      ∧ pc = hdrEffectivePriority c.format.id
      ∧ (c = x ∨ acc = some (c, pc))
      ∧ pc ≤ hdrEffectivePriority x.format.id
      ∧ (∀ a q, acc = some (a, q) → pc ≤ q) := by
  cases acc with
  | none =>
    refine ⟨x, hdrEffectivePriority x.format.id, rfl, rfl, Or.inl rfl, le_refl _, ?_⟩
    intro a q h
    cases h
  | some bq =>
    obtain ⟨b0, q0⟩ := bq
    have hq0 : q0 = hdrEffectivePriority b0.format.id := hwf b0 q0 rfl
    by_cases hlt : hdrEffectivePriority x.format.id < q0
    · refine ⟨x, hdrEffectivePriority x.format.id, ?_, rfl, Or.inl rfl, le_refl _, ?_⟩
      · simp only [hdrBestStep]
        rw [if_pos hlt]
      · intro a q h
        cases h
        exact le_of_lt hlt
    · refine ⟨b0, q0, ?_, hq0, Or.inr rfl, ?_, ?_⟩
      · simp only [hdrBestStep]
        rw [if_neg hlt]
      · exact le_of_not_lt hlt
      · intro a q h
        cases h
        exact le_refl _

/-- Invariant of the best-HDR fold: a `some` result carries its own effective
priority, comes from the accumulator or the list, and its priority is minimal
among the list elements and any accumulator entry. -/
theorem hdrFold_spec (l : List MatchedFormat) :
    ∀ (acc : Option (MatchedFormat × Nat)),
      (∀ a q, acc = some (a, q) → q = hdrEffectivePriority a.format.id) →
      ∀ best p, l.foldl hdrBestStep acc = some (best, p) →
        p = hdrEffectivePriority best.format.id
        ∧ (acc = some (best, p) ∨ best ∈ l)
        ∧ (∀ mf ∈ l, p ≤ hdrEffectivePriority mf.format.id)
        ∧ (∀ a q, acc = some (a, q) → p ≤ q) := by
  induction l with
  | nil =>
    intro acc hwf best p hfold
    simp only [List.foldl_nil] at hfold
    refine ⟨hwf best p hfold, Or.inl hfold, by simp, ?_⟩
    intro a q ha
    rw [hfold] at ha
    cases ha
    exact le_refl _
  | cons x xs ih =>
    intro acc hwf best p hfold
    simp only [List.foldl_cons] at hfold
    obtain ⟨c, pc, hstep, hwfc, hcx, hcle, hcacc⟩ := hdrBestStep_cases acc x hwf
    have hwfstep : ∀ a q, hdrBestStep acc x = some (a, q) →
        q = hdrEffectivePriority a.format.id := by
      intro a q h
      rw [hstep] at h
      cases h
      exact hwfc
    obtain ⟨h1, h2, h3, h4⟩ := ih (hdrBestStep acc x) hwfstep best p hfold
    have hppc : p ≤ pc := h4 c pc hstep
    refine ⟨h1, ?_, ?_, ?_⟩
    · rcases h2 with h2 | h2
      · rw [hstep] at h2
        injection h2 with h2
        injection h2 with hbc hppc'
        rcases hcx with hcx | hcx
        · exact Or.inr (by rw [← hbc, hcx]; exact List.mem_cons_self _ _)
        · refine Or.inl ?_
          rw [hcx, hbc, hppc']
      · exact Or.inr (List.mem_cons_of_mem _ h2)
    · intro mf hmf
      rcases List.mem_cons.mp hmf with hmf | hmf
      · rw [hmf]
        exact le_trans hppc hcle
      · exact h3 mf hmf
    · intro a q ha
      exact le_trans hppc (hcacc a q ha)

/-- The best-HDR fold over a non-empty list yields a result. -/
theorem hdrFold_isSome (l : List MatchedFormat) :
    ∀ acc : Option (MatchedFormat × Nat), l ≠ [] ∨ acc.isSome →
      (l.foldl hdrBestStep acc).isSome := by
  induction l with
  | nil =>
    intro acc h
    rcases h with h | h
    · exact absurd rfl h
    · simpa using h
  | cons x xs ih =>
    intro acc _
    simp only [List.foldl_cons]
    apply ih
    right
    cases hacc : acc with
    | none => simp [hdrBestStep]
    | some bq =>
      obtain ⟨b0, q0⟩ := bq
      simp only [hdrBestStep]
      split <;> simp

/-- Filtering twice with the same predicate is the same as filtering once. -/
theorem filter_self_idem {α : Type} (p : α → Bool) (l : List α) :
    (l.filter p).filter p = l.filter p := by
  rw [List.filter_filter]
  congr 1
  funext a
  rw [Bool.and_self]

/-- Claim C4: `applyMutualExclusivity` passes all non-hdr-category matches
through unchanged; when more than one hdr-category format matched it keeps
exactly one of them — one drawn from the input whose effective priority
(position in `HDR_PRIORITY`, ids absent from the list counting as lowest
priority) is minimal among all matched hdr-category formats. -/
theorem claim4_applyMutualExclusivity_spec (matched : List MatchedFormat)
    (prof : ScoringProfile) :
    ((applyMutualExclusivity matched prof).filter
        (fun mf => mf.format.category != "hdr")
      = matched.filter (fun mf => mf.format.category != "hdr"))
    ∧ ((matched.filter (fun mf => mf.format.category == "hdr")).length > 1 →
        ∃ best,
          (applyMutualExclusivity matched prof).filter
              (fun mf => mf.format.category == "hdr") = [best]
          ∧ best ∈ matched
          ∧ best.format.category = "hdr"
          ∧ ∀ mf ∈ matched, mf.format.category = "hdr" →
              hdrEffectivePriority best.format.id
                ≤ hdrEffectivePriority mf.format.id) := by
  by_cases hlen : (matched.filter (fun mf => mf.format.category == "hdr")).length > 1
  · have hne : matched.filter (fun mf => mf.format.category == "hdr") ≠ [] := by
      intro h
      rw [h] at hlen
      simp at hlen
    have hsome := hdrFold_isSome (matched.filter (fun mf => mf.format.category == "hdr"))
      none (Or.inl hne)
    obtain ⟨⟨best, p⟩, hfold⟩ := Option.isSome_iff_exists.mp hsome
    obtain ⟨h1, h2, h3, _⟩ := hdrFold_spec
      (matched.filter (fun mf => mf.format.category == "hdr")) none
      (by intro a q h; cases h) best p hfold
    have hbestmem : best ∈ matched.filter (fun mf => mf.format.category == "hdr") := by
      rcases h2 with h2 | h2
      · cases h2
      · exact h2
    have hbest' := List.mem_filter.mp hbestmem
    have hbestcat : best.format.category = "hdr" := by
      have := hbest'.2
      simpa using this
    have hout : applyMutualExclusivity matched prof
        = (matched.filter (fun mf => mf.format.category != "hdr")) ++ [best] := by
      simp only [applyMutualExclusivity]
      rw [if_pos hlen, hfold]
    constructor
    · rw [hout, List.filter_append, filter_self_idem]
      have : [best].filter (fun mf => mf.format.category != "hdr") = [] := by
        simp [List.filter, hbestcat]
      rw [this, List.append_nil]
    · intro _
      refine ⟨best, ?_, hbest'.1, hbestcat, ?_⟩
      · rw [hout, List.filter_append]
        have hleft : (matched.filter (fun mf => mf.format.category != "hdr")).filter
            (fun mf => mf.format.category == "hdr") = [] := by
          rw [List.filter_eq_nil_iff]
          intro a ha
          have := (List.mem_filter.mp ha).2
          simp only [bne_iff_ne, ne_eq] at this
          simp [this]
        have hright : [best].filter (fun mf => mf.format.category == "hdr") = [best] := by
          simp [List.filter, hbestcat]
        rw [hleft, hright, List.nil_append]
      · intro mf hmf hmfcat
        rw [← h1]
        exact h3 mf (List.mem_filter.mpr ⟨hmf, by simp [hmfcat]⟩)
  · constructor
    · have hout : applyMutualExclusivity matched prof = matched := by
        simp only [applyMutualExclusivity]
        rw [if_neg hlen]
      rw [hout]
    · intro h
      exact absurd h hlen

/-- Claim C4 witness: with a generic-HDR and a Dolby-Vision match, more than
one hdr-category format matched, and the theorem yields the single surviving
hdr-category format of minimal effective priority. -/
theorem claim4_applyMutualExclusivity_spec_witness :
    (sampleHdrMatches.filter (fun mf => mf.format.category == "hdr")).length > 1
    ∧ ∃ best,
        (applyMutualExclusivity sampleHdrMatches
            ⟨"p", "P", [], none, none, none, none, none, none, none, none⟩).filter
            (fun mf => mf.format.category == "hdr") = [best]
        ∧ best ∈ sampleHdrMatches
        ∧ best.format.category = "hdr"
        ∧ ∀ mf ∈ sampleHdrMatches, mf.format.category = "hdr" →
            hdrEffectivePriority best.format.id ≤ hdrEffectivePriority mf.format.id :=
  ⟨by decide,
   (claim4_applyMutualExclusivity_spec sampleHdrMatches
      ⟨"p", "P", [], none, none, none, none, none, none, none, none⟩).2 (by decide)⟩

/-- `all` over a mapped list tests the composite predicate. -/
theorem all_map_comp {α β : Type} (f : α → β) (l : List α) (p : β → Bool) :
    (l.map f).all p = l.all (fun a => p (f a)) := by
  induction l with
  | nil => rfl
  | cons x xs ih => simp [List.all_cons, ih]

/-- `any` over a mapped list tests the composite predicate. -/
theorem any_map_comp {α β : Type} (f : α → β) (l : List α) (p : β → Bool) :
    (l.map f).any p = l.any (fun a => p (f a)) := by
  induction l with
  | nil => rfl
  | cons x xs ih => simp [List.any_cons, ih]

/-- Mapping preserves emptiness. -/
theorem isEmpty_map_eq {α β : Type} (f : α → β) (l : List α) :
    (l.map f).isEmpty = l.isEmpty := by
  cases l <;> rfl

/-- Filtering the evaluated conditions on `required` is evaluating the
required conditions (evaluation preserves the condition in the trace). -/
theorem filter_required_map (engine : RegexEngine) (attrs : ReleaseAttributes)
    (l : List FormatCondition) :
    (l.map (fun c => evaluateCondition engine c attrs)).filter
        (fun r => r.condition.required)
      = (l.filter (fun c => c.required)).map
          (fun c => evaluateCondition engine c attrs) := by
  induction l with
  | nil => rfl
  | cons c cs ih =>
    have hcond : (evaluateCondition engine c attrs).condition = c := rfl
    simp only [List.map_cons, List.filter_cons, hcond]
    by_cases hc : c.required
    · simp [hc, ih]
    · simp [hc, ih]

/-- Filtering the evaluated conditions on `!required` is evaluating the
optional conditions. -/
theorem filter_optional_map (engine : RegexEngine) (attrs : ReleaseAttributes)
    (l : List FormatCondition) :
    (l.map (fun c => evaluateCondition engine c attrs)).filter
        (fun r => !r.condition.required)
      = (l.filter (fun c => !c.required)).map
          (fun c => evaluateCondition engine c attrs) := by
  induction l with
  | nil => rfl
  | cons c cs ih =>
    have hcond : (evaluateCondition engine c attrs).condition = c := rfl
    simp only [List.map_cons, List.filter_cons, hcond]
    by_cases hc : c.required
    · simp [hc, ih]
    · simp [hc, ih]

/-- Claim C3: a format matches iff every required condition individually
matches (vacuously when there are none) and, when at least one optional
condition exists, at least one optional condition matches; in particular a
format with no conditions always matches. -/
theorem claim3_evaluateFormat_semantics (engine : RegexEngine)
    (format : CustomFormat) (attrs : ReleaseAttributes) :
    ((evaluateFormat engine format attrs).«matches» = true ↔
      ((∀ c ∈ format.conditions, c.required = true →
          (evaluateCondition engine c attrs).«matches» = true)
       ∧ ((∃ c ∈ format.conditions, c.required = false) →
          ∃ c ∈ format.conditions, c.required = false
            ∧ (evaluateCondition engine c attrs).«matches» = true)))
    ∧ (format.conditions = [] →
        (evaluateFormat engine format attrs).«matches» = true) := by
  constructor
  · have hm : (evaluateFormat engine format attrs).«matches»
        = (((format.conditions.map (fun c => evaluateCondition engine c attrs)).filter
              (fun r => r.condition.required)).all (fun r => r.«matches»)
           && (((format.conditions.map (fun c => evaluateCondition engine c attrs)).filter
                  (fun r => !r.condition.required)).isEmpty
               || ((format.conditions.map (fun c => evaluateCondition engine c attrs)).filter
                  (fun r => !r.condition.required)).any (fun r => r.«matches»))) := rfl
    rw [hm, filter_required_map, filter_optional_map, all_map_comp, any_map_comp,
      isEmpty_map_eq]
    simp only [Bool.and_eq_true, Bool.or_eq_true, List.all_eq_true, List.any_eq_true,
      List.isEmpty_iff, List.filter_eq_nil_iff, List.mem_filter,
      Bool.not_eq_true', Bool.not_eq_true]
    constructor
    · rintro ⟨hreq, hopt⟩
      refine ⟨fun c hc hcr => hreq c ⟨hc, hcr⟩, ?_⟩
      rintro ⟨c, hc, hcr⟩
      rcases hopt with hopt | hopt
      · exact absurd hcr (by simpa using hopt c hc)
      · obtain ⟨c', ⟨hc', hcr'⟩, hm'⟩ := hopt
        exact ⟨c', hc', hcr', hm'⟩
    · rintro ⟨hreq, hopt⟩
      refine ⟨fun c hc => hreq c hc.1 hc.2, ?_⟩
      by_cases hex : ∃ c ∈ format.conditions, c.required = false
      · obtain ⟨c', hc', hcr', hm'⟩ := hopt hex
        exact Or.inr ⟨c', ⟨hc', hcr'⟩, hm'⟩
      · left
        intro c hc
        by_contra hcr
        exact hex ⟨c, hc, by simpa using hcr⟩
  · obtain ⟨fid, fname, fdesc, fcat, ftags, fconds⟩ := format
    intro h
    simp only at h
    subst h
    rfl

/-- Claim C3 witness: a format with an empty condition list always matches
(evaluated here under the engine with no compilable patterns). -/
theorem claim3_evaluateFormat_semantics_witness :
    (evaluateFormat nullRegexEngine ⟨"empty", "Empty", "", "other", [], []⟩
      ⟨"T", "T", none, "1080p", "webdl", "h264", none, "aac", none, none,
        false, false, false, false, []⟩).«matches» = true :=
  (claim3_evaluateFormat_semantics nullRegexEngine
    ⟨"empty", "Empty", "", "other", [], []⟩
    ⟨"T", "T", none, "1080p", "webdl", "h264", none, "aac", none, none,
      false, false, false, false, []⟩).2 rfl

/-- Claim C7 counterexample: a `release_group` condition with `negate = true`
evaluated against attributes with no release group (a missing attribute)
yields `matches = true`, not `matches = false` as claimed — negation is
applied on top of the raw non-match (spec §4.1). -/
theorem claim7_counterexample_negated_missing_attribute :
    bareAttrs.releaseGroup = none
    ∧ (evaluateCondition nullRegexEngine
        ⟨"neg group", CondType.releaseGroup "SPARKS", true, true⟩
        bareAttrs).«matches» = true := by
  constructor
  · rfl
  · rfl

/-- Claim C7 (amended): condition evaluation is total, an invalid pattern and
a missing attribute (absent release group or streaming service, unknown
flag) all make the raw predicate false, and `matches` is the
negation-adjusted raw value — hence `matches = false` for such conditions
whenever `negate` is false. -/
theorem claim7_condition_failure_semantics (engine : RegexEngine)
    (c : FormatCondition) (attrs : ReleaseAttributes) :
    (∀ pattern, c.ctype = CondType.releaseTitle pattern →
      engine.compile pattern = none →
      (evaluateCondition engine c attrs).rawMatch = false)
    ∧ (∀ pattern, c.ctype = CondType.releaseGroup pattern →
        engine.compile pattern = none →
        (evaluateCondition engine c attrs).rawMatch = false)
    ∧ (∀ pattern, c.ctype = CondType.releaseGroup pattern →
        attrs.releaseGroup = none →
        (evaluateCondition engine c attrs).rawMatch = false)
    ∧ (∀ flagName, c.ctype = CondType.flag flagName →
        lookupFlag attrs flagName = none →
        (evaluateCondition engine c attrs).rawMatch = false)
    ∧ (∀ v, c.ctype = CondType.streamingService v →
        attrs.streamingService = none →
        (evaluateCondition engine c attrs).rawMatch = false)
    ∧ (evaluateCondition engine c attrs).«matches»
        = (if c.negate then !(evaluateCondition engine c attrs).rawMatch
           else (evaluateCondition engine c attrs).rawMatch) := by
  have hraw : (evaluateCondition engine c attrs).rawMatch
      = conditionRawMatch engine c attrs := rfl
  refine ⟨?_, ?_, ?_, ?_, ?_, rfl⟩
  · intro pattern hc hcompile
    rw [hraw]
    simp only [conditionRawMatch, hc, regexTest, hcompile]
  · intro pattern hc hcompile
    rw [hraw]
    simp only [conditionRawMatch, hc]
    cases attrs.releaseGroup with
    | none => rfl
    | some g => simp only [regexTest, hcompile]
  · intro pattern hc hgroup
    rw [hraw]
    simp only [conditionRawMatch, hc, hgroup]
  · intro flagName hc hflag
    rw [hraw]
    simp only [conditionRawMatch, hc, hflag, Option.getD_none]
  · intro v hc hstream
    rw [hraw]
    simp only [conditionRawMatch, hc, hstream]

/-- Claim C7 witness: a concrete invalid pattern (no pattern compiles under
`nullRegexEngine`) on a `release_title` condition yields a raw non-match. -/
theorem claim7_condition_failure_semantics_witness :
    (evaluateCondition nullRegexEngine
      ⟨"bad pattern", CondType.releaseTitle "[invalid(", true, false⟩
      bareAttrs).rawMatch = false :=
  (claim7_condition_failure_semantics nullRegexEngine
    ⟨"bad pattern", CondType.releaseTitle "[invalid(", true, false⟩
    bareAttrs).1 "[invalid(" rfl rfl

/-- Adding one scored format to the breakdown adds its score to the subtotal
sum exactly when its category maps to a bucket. -/
theorem breakdownTotal_addToBreakdown (b : ScoreBreakdown) (mf : ScoredFormat) :
    breakdownTotal (addToBreakdown b mf)
      = breakdownTotal b
        + (if (categoryToBreakdownKey mf.format.category).isSome then mf.score else 0) := by
  simp only [addToBreakdown]
  cases hk : categoryToBreakdownKey mf.format.category with
  | none => simp
  | some key =>
    cases key <;> simp [bumpBreakdown, breakdownTotal] <;> ring

/-- The breakdown fold accumulates the mapped formats' scores. -/
theorem breakdownTotal_foldl (l : List ScoredFormat) :
    ∀ b : ScoreBreakdown,
      breakdownTotal (l.foldl addToBreakdown b)
        = breakdownTotal b
          + ((l.filter (fun f => (categoryToBreakdownKey f.format.category).isSome)).map
              (fun f => f.score)).sum := by
  induction l with
  | nil => intro b; simp
  | cons x xs ih =>
    intro b
    simp only [List.foldl_cons, List.filter_cons]
    rw [ih, breakdownTotal_addToBreakdown]
    cases hk : (categoryToBreakdownKey x.format.category).isSome with
    | false => simp [hk]
    | true => simp [hk, add_assoc]

/-- Claim C9 counterexample: with a single matched format of category
`other` (mapping to no breakdown bucket) and no profile score, the nine
breakdown subtotals sum to the total score even though not every matched
format's category maps to a bucket — refuting the claimed "only when". -/
theorem claim9_counterexample_zero_score_unmapped :
    breakdownTotal (scoreRelease "R"
        ⟨"p", "P", [], none, none, none, none, none, none, none, none⟩
        [⟨⟨"f", "F", "", "other", [], []⟩, []⟩] none none none).breakdown = 0
    ∧ (scoreRelease "R"
        ⟨"p", "P", [], none, none, none, none, none, none, none, none⟩
        [⟨⟨"f", "F", "", "other", [], []⟩, []⟩] none none none).totalScore
        = JsNum.num 0
    ∧ ∃ f ∈ (scoreRelease "R"
        ⟨"p", "P", [], none, none, none, none, none, none, none, none⟩
        [⟨⟨"f", "F", "", "other", [], []⟩, []⟩] none none none).matchedFormats,
        categoryToBreakdownKey f.format.category = none := by
  refine ⟨by decide, by decide, ?_⟩
  refine ⟨(scoreRelease "R"
      ⟨"p", "P", [], none, none, none, none, none, none, none, none⟩
      [⟨⟨"f", "F", "", "other", [], []⟩, []⟩] none none none).matchedFormats.head
      (by decide), ?_, by decide⟩
  exact List.head_mem _

/-- Claim C9 (amended): a matched format whose category maps to no breakdown
bucket (such as `other`) contributes its profile score to the arithmetic
total but appears in no bucket: the nine breakdown subtotals always sum to
the mapped formats' scores, the unbanned total score is the sum over all
matched formats, and hence when every matched format's category maps to a
bucket (and the release is not banned) the subtotals sum to `totalScore`. -/
theorem claim9_breakdown_total_vs_totalScore (name : String)
    (prof : ScoringProfile) (matched : List MatchedFormat) (fsb : Option ℚ)
    (ctx : Option SizeValidationContext) (proto : Option Protocol) :
    breakdownTotal (scoreRelease name prof matched fsb ctx proto).breakdown
      = (((scoreRelease name prof matched fsb ctx proto).matchedFormats.filter
          (fun f => (categoryToBreakdownKey f.format.category).isSome)).map
          (fun f => f.score)).sum
    ∧ ((scoreRelease name prof matched fsb ctx proto).isBanned = false →
        (scoreRelease name prof matched fsb ctx proto).totalScore
          = JsNum.num (((scoreRelease name prof matched fsb ctx proto).matchedFormats.map
              (fun f => f.score)).sum))
    ∧ ((∀ f ∈ (scoreRelease name prof matched fsb ctx proto).matchedFormats,
          (categoryToBreakdownKey f.format.category).isSome) →
        (scoreRelease name prof matched fsb ctx proto).isBanned = false →
        (scoreRelease name prof matched fsb ctx proto).totalScore
          = JsNum.num (breakdownTotal
              (scoreRelease name prof matched fsb ctx proto).breakdown)) := by
  have hb : breakdownTotal (scoreRelease name prof matched fsb ctx proto).breakdown
      = (((scoreRelease name prof matched fsb ctx proto).matchedFormats.filter
          (fun f => (categoryToBreakdownKey f.format.category).isSome)).map
          (fun f => f.score)).sum := by
    rw [scoreRelease_breakdown, scoreRelease_matchedFormats]
    show breakdownTotal
        ((calculateFormatScores (applyMutualExclusivity matched prof) prof).foldl
          addToBreakdown emptyBreakdown) = _
    rw [breakdownTotal_foldl]
    simp [breakdownTotal, emptyBreakdown]
  have ht : (scoreRelease name prof matched fsb ctx proto).isBanned = false →
      (scoreRelease name prof matched fsb ctx proto).totalScore
        = JsNum.num (((scoreRelease name prof matched fsb ctx proto).matchedFormats.map
            (fun f => f.score)).sum) := by
    intro h
    rw [scoreRelease_isBanned] at h
    rw [scoreRelease_totalScore, if_neg (by simp [h]), scoreRelease_matchedFormats,
      foldl_score_sum, zero_add]
  refine ⟨hb, ht, ?_⟩
  intro hall hban
  rw [ht hban, hb]
  have : (scoreRelease name prof matched fsb ctx proto).matchedFormats.filter
      (fun f => (categoryToBreakdownKey f.format.category).isSome)
      = (scoreRelease name prof matched fsb ctx proto).matchedFormats := by
    apply List.filter_eq_self.mpr
    intro a ha
    simpa using hall a ha
  rw [this]

/-- Claim C9 witness: with one matched format of the mapped category
`resolution` and score 7, the release is not banned, every matched category
maps, and the total score equals the breakdown subtotal sum. -/
theorem claim9_breakdown_total_vs_totalScore_witness :
    (scoreRelease "R" ⟨"p", "P", [("r4k", 7)], none, none, none, none, none,
        none, none, none⟩
      [⟨⟨"r4k", "4K", "", "resolution", [], []⟩, []⟩] none none none).totalScore
      = JsNum.num (breakdownTotal (scoreRelease "R"
          ⟨"p", "P", [("r4k", 7)], none, none, none, none, none, none, none, none⟩
          [⟨⟨"r4k", "4K", "", "resolution", [], []⟩, []⟩] none none none).breakdown) :=
  (claim9_breakdown_total_vs_totalScore "R"
    ⟨"p", "P", [("r4k", 7)], none, none, none, none, none, none, none, none⟩
    [⟨⟨"r4k", "4K", "", "resolution", [], []⟩, []⟩] none none none).2.2
    (by decide) (by decide)

/-- `belowBound` holds exactly when the bound is present and violated. -/
theorem belowBound_eq_true_iff (size : ℚ) (bound : Option ℚ) :
    belowBound size bound = true ↔ ∃ m, bound = some m ∧ size < m := by
  cases bound <;> simp [belowBound]

/-- `aboveBound` holds exactly when the bound is present and violated. -/
theorem aboveBound_eq_true_iff (size : ℚ) (bound : Option ℚ) :
    aboveBound size bound = true ↔ ∃ m, bound = some m ∧ size > m := by
  cases bound <;> simp [aboveBound]

/-- TV size validation of a season pack with a positive episode count
reduces to the bound checks on the per-episode average. -/
theorem validateSize_tv_pack (prof : ScoringProfile) (bytes : ℚ) (n : Int)
    (hb : 0 < bytes) (hn : 0 < n) :
    validateSize prof (some bytes) (some ⟨MediaType.tv, true, some n⟩)
      = (if belowBound (bytes / (1024 * 1024) / (n : ℚ)) prof.episodeMinSizeMb then
           (true, some ("Episode size " ++ jsToFixed 0 (bytes / (1024 * 1024) / (n : ℚ))
             ++ " MB" ++ " per episode (avg)" ++ " is below minimum "
             ++ jsOptRepr prof.episodeMinSizeMb ++ " MB"))
         else if aboveBound (bytes / (1024 * 1024) / (n : ℚ)) prof.episodeMaxSizeMb then
           (true, some ("Episode size " ++ jsToFixed 0 (bytes / (1024 * 1024) / (n : ℚ))
             ++ " MB" ++ " per episode (avg)" ++ " exceeds maximum "
             ++ jsOptRepr prof.episodeMaxSizeMb ++ " MB"))
         else (false, none)) := by
  have havg : (0 : ℚ) < bytes / (1024 * 1024) / (n : ℚ) := by
    apply div_pos
    · apply div_pos hb
      norm_num
    · exact_mod_cast hn
  simp only [validateSize]
  rw [if_pos hb]
  simp only [if_true]
  rw [if_neg (not_le.mpr hn), if_pos havg]

/-- TV size validation of a season pack is skipped entirely when the episode
count is absent or non-positive. -/
theorem validateSize_tv_pack_unknown_count (prof : ScoringProfile) (bytes : ℚ)
    (ec : Option Int) (hec : ec = none ∨ ∃ n, ec = some n ∧ n ≤ 0) :
    validateSize prof (some bytes) (some ⟨MediaType.tv, true, ec⟩) = (false, none) := by
  rcases hec with hec | ⟨n, hec, hn⟩ <;> subst hec
  · simp only [validateSize]
    by_cases hb : bytes > 0
    · rw [if_pos hb]
      simp only [if_true]
      rw [if_neg (by norm_num : ¬((-1 : ℚ) > 0))]
    · rw [if_neg hb]
  · simp only [validateSize]
    by_cases hb : bytes > 0
    · rw [if_pos hb]
      simp only [if_true]
      rw [if_pos hn, if_neg (by norm_num : ¬((-1 : ℚ) > 0))]
    · rw [if_neg hb]

/-- Claim C5: in a TV scoring call with a positive file size and a
season-pack size context, a positive episode count makes the bound checks
run against the per-episode average (total MB divided by the episode count),
with the rejection reason embedding the computed per-episode figure; an
absent or non-positive episode count skips size validation entirely, so the
release is never size-rejected. -/
theorem claim5_tv_season_pack_size_validation (name : String)
    (prof : ScoringProfile) (matched : List MatchedFormat)
    (proto : Option Protocol) (bytes : ℚ) (ctx : SizeValidationContext)
    (hmt : ctx.mediaType = MediaType.tv) (hsp : ctx.isSeasonPack = true)
    (hb : 0 < bytes) :
    (∀ n : Int, ctx.episodeCount = some n → 0 < n →
      (((scoreRelease name prof matched (some bytes) (some ctx) proto).sizeRejected = true
        ↔ ((∃ m, prof.episodeMinSizeMb = some m ∧ bytes / (1024 * 1024) / (n : ℚ) < m)
           ∨ (∃ m, prof.episodeMaxSizeMb = some m ∧ bytes / (1024 * 1024) / (n : ℚ) > m)))
       ∧ ((scoreRelease name prof matched (some bytes) (some ctx) proto).sizeRejected
            = true →
           ∃ pre post,
             (scoreRelease name prof matched (some bytes)
                 (some ctx) proto).sizeRejectionReason
               = some (pre ++ (jsToFixed 0 (bytes / (1024 * 1024) / (n : ℚ)) ++ post)))))
    ∧ ((ctx.episodeCount = none ∨ ∃ n, ctx.episodeCount = some n ∧ n ≤ 0) →
        (scoreRelease name prof matched (some bytes) (some ctx) proto).sizeRejected
          = false) := by
  obtain ⟨mt, sp, ec⟩ := ctx
  dsimp only at hmt hsp
  subst hmt
  subst hsp
  constructor
  · intro n hec hn
    dsimp only at hec
    subst hec
    rw [scoreRelease_sizeRejected, scoreRelease_sizeRejectionReason,
      validateSize_tv_pack prof bytes n hb hn]
    by_cases hbb : belowBound (bytes / (1024 * 1024) / (n : ℚ)) prof.episodeMinSizeMb = true
    · rw [if_pos hbb]
      refine ⟨⟨fun _ => Or.inl ((belowBound_eq_true_iff _ _).mp hbb), fun _ => rfl⟩, ?_⟩
      intro _
      refine ⟨"Episode size ",
        " MB" ++ " per episode (avg)" ++ " is below minimum "
          ++ jsOptRepr prof.episodeMinSizeMb ++ " MB", ?_⟩
      show some _ = some _
      congr 1
      simp [String.append_assoc]
    · rw [if_neg hbb]
      by_cases hab : aboveBound (bytes / (1024 * 1024) / (n : ℚ)) prof.episodeMaxSizeMb = true
      · rw [if_pos hab]
        refine ⟨⟨fun _ => Or.inr ((aboveBound_eq_true_iff _ _).mp hab), fun _ => rfl⟩, ?_⟩
        intro _
        refine ⟨"Episode size ",
          " MB" ++ " per episode (avg)" ++ " exceeds maximum "
            ++ jsOptRepr prof.episodeMaxSizeMb ++ " MB", ?_⟩
        show some _ = some _
        congr 1
        simp [String.append_assoc]
      · rw [if_neg hab]
        refine ⟨⟨fun h => absurd h (by simp), ?_⟩, fun h => absurd h (by simp)⟩
        rintro (⟨m, hm, hlt⟩ | ⟨m, hm, hgt⟩)
        · exact absurd ((belowBound_eq_true_iff _ _).mpr ⟨m, hm, hlt⟩) hbb
        · exact absurd ((aboveBound_eq_true_iff _ _).mpr ⟨m, hm, hgt⟩) hab
  · intro hec
    dsimp only at hec
    rw [scoreRelease_sizeRejected, validateSize_tv_pack_unknown_count prof bytes ec hec]

/-- Claim C5 witness: a 10 GiB season pack with episode count 10 against an
800 MB per-episode cap is size-rejected (the 1024 MB per-episode average
exceeds the cap), by applying the theorem at that concrete input. -/
theorem claim5_tv_season_pack_size_validation_witness :
    (scoreRelease "Pack" cap800Profile []
        (some 10737418240) (some ⟨MediaType.tv, true, some 10⟩) none).sizeRejected
      = true :=
  (((claim5_tv_season_pack_size_validation "Pack" cap800Profile [] none
      10737418240 ⟨MediaType.tv, true, some 10⟩ rfl rfl (by norm_num)).1
      10 rfl (by norm_num)).1).mpr
    (Or.inr ⟨800, rfl, by norm_num [cap800Profile]⟩)
